import Mathlib

/-!
# Verification of the opencl-demo compute-dispatch code

Shallow embedding of the Go demo application `eriklupander/opencl-demo`.
Each demo (`Structs`, `SquareLocalSize`, `Vectors`, `BatchedSquare`,
`MultiDim`, `Benchmark`) stages data into device buffers, computes a
work-group geometry and dispatches an OpenCL kernel.  The definitions below
are translated from the Go functions and from the OpenCL kernel sources
embedded in them; device capabilities (max work-group size, max work-item
sizes, the implementation-chosen local size of an unspecified dispatch) are
parameters, since they are environment inputs of the program.
-/

set_option autoImplicit false

namespace OpenCLDemo

/-! ## Work partitioner: auto-padding of the global size

Both `Structs` (part_000, lines 161-167) and `Vectors` (part_002, lines
169-175) compute

    global := problemSize
    d := global % local
    if d != 0 { global += local - d }

with `local` the device-preferred work-group size (multiple). -/

/-- The auto-padded global size, exactly as the Go code computes it. -/
def autoPadGlobal (problemSize P : Nat) : Nat :=
  let d := problemSize % P
  if d ≠ 0 then problemSize + (P - d) else problemSize

/-! ## Device selection

`Structs` (part_000, lines 72-75) and `Vectors` (part_002, lines 64-67)
clamp a negative `deviceIndex` to 0 before indexing the device list; the
other demos (`SquareLocalSize`, `MultiDim`, `BatchedSquare`, `Benchmark`)
index `devices[deviceIndex]` with the argument as given.  Go slice indexing
with an index that is negative or `≥ len` aborts with a runtime
index-out-of-range panic; we model that as `SelectOutcome.runtimePanic`,
distinct from the reported fatal log/panic paths the code itself contains
(`SelectOutcome.reportedFatal`). -/

/-- Effective device index used by `Structs`: negative indices are clamped
to 0 (`if deviceIndex < 0 { deviceIndex = 0 }`). -/
def structsDeviceIndex (i : Int) : Int :=
  if i < 0 then 0 else i

/-- Effective device index used by `Vectors`: negative indices are clamped
to 0. -/
def vectorsDeviceIndex (i : Int) : Int :=
  if i < 0 then 0 else i

/-- Effective device index used by `SquareLocalSize`: used as given. -/
def squareLocalDeviceIndex (i : Int) : Int := i

/-- Effective device index used by `MultiDim`: used as given. -/
def multiDimDeviceIndex (i : Int) : Int := i

/-- Effective device index used by `BatchedSquare`: used as given. -/
def batchedSquareDeviceIndex (i : Int) : Int := i

/-- Effective device index used by `Benchmark`: used as given. -/
def benchmarkDeviceIndex (i : Int) : Int := i

/-- Outcome of the device-selection prologue of a demo. -/
inductive SelectOutcome where
  /-- Selection succeeded with the given position in the device list. -/
  | ok (idx : Nat)
  /-- The code reported a fatal error itself (`logrus.Fatalf` / `panic`
  with a message), e.g. for an empty device list. -/
  | reportedFatal (msg : String)
  /-- Go aborted with an unreported index-out-of-range runtime panic. -/
  | runtimePanic
  deriving DecidableEq

/-- Go slice indexing: `some` element position when in range, `none`
(runtime panic) otherwise. -/
def goIndexOutcome (len : Nat) (i : Int) : SelectOutcome :=
  if 0 ≤ i ∧ i < (len : Int) then .ok i.toNat else .runtimePanic

/-- Device selection of `Benchmark` (benchmark.go, lines 28-40): panic with
a message when the device list is empty, otherwise `devices[deviceIndex]`
with the raw index. -/
def benchmarkSelect (numDevices : Nat) (deviceIndex : Int) : SelectOutcome :=
  if numDevices = 0 then .reportedFatal "GetDevices returned no devices"
  else goIndexOutcome numDevices (benchmarkDeviceIndex deviceIndex)

/-- Device selection of `Structs` (part_000, lines 65-75): fatal log when
the device list is empty, negative index clamped to 0, then
`devices[deviceIndex]`. -/
def structsSelect (numDevices : Nat) (deviceIndex : Int) : SelectOutcome :=
  if numDevices = 0 then .reportedFatal "GetDevices returned no devices"
  else goIndexOutcome numDevices (structsDeviceIndex deviceIndex)

/-! ## Benchmark drivers: candidate feasibility and timing

`Benchmark` (benchmark.go, lines 123-149) and `BatchedSquare` (part_002,
lines 312-339) iterate over the same candidate list of local sizes and
`continue` past candidates they judge infeasible:

  * benchmark.go line 131:
    `if localSize*localSize > maxWgSize || localSize > wiSizes[0] || localSize > wiSizes[1] { continue }`
  * part_002 line 318: `if lz > maxWGSize { continue }`

A non-skipped candidate is dispatched `iterations = 16` times and one
table row with `sum/iterations` microseconds is printed. -/

/-- The candidate local sizes of both benchmark drivers. -/
def benchmarkLocalSizes : List Nat :=
  [1, 2, 4, 8, 16, 32, 64, 128, 256, 512, 1024]

/-- Skip condition of the 2-D `Benchmark` driver (benchmark.go line 131). -/
def benchmark2DSkip (maxWG wi0 wi1 L : Nat) : Bool :=
  decide (L * L > maxWG) || decide (L > wi0) || decide (L > wi1)

/-- Skip condition of the `BatchedSquare` driver (part_002 line 318):
only the max work-group size is checked. -/
def batchedSquareSkip (maxWG lz : Nat) : Bool :=
  decide (lz > maxWG)

/-- Skip condition the claim asserts for the `BatchedSquare` driver: skip
also when the size exceeds the first `maxWorkItemSizes` entry. -/
def batchedSquareSkipClaim (maxWG wi0 lz : Nat) : Bool :=
  decide (lz > maxWG) || decide (lz > wi0)

/-- Local sizes for which the 2-D `Benchmark` driver dispatches and prints
a measurement row, in candidate order. -/
def benchmark2DRows (maxWG wi0 wi1 : Nat) : List Nat :=
  benchmarkLocalSizes.filter (fun L => ! benchmark2DSkip maxWG wi0 wi1 L)

/-- Local sizes for which the `BatchedSquare` driver dispatches and prints
a measurement row, in candidate order. -/
def batchedSquareRows (maxWG : Nat) : List Nat :=
  benchmarkLocalSizes.filter (fun lz => ! batchedSquareSkip maxWG lz)

/-- Number of repetitions per feasible candidate (`iterations := 16` in
both drivers). -/
def benchmarkIterations : Nat := 16

/-- `cumulativeSamples durs t` are the values of `time.Since(st)` observed
at the end of each repetition when `st` was taken at elapsed time `t` and
the repetitions take `durs` (whole microseconds) each. -/
def cumulativeSamples : List Nat → Nat → List Nat
  | [], _ => []
  | d :: rest, t => (t + d) :: cumulativeSamples rest (t + d)

/-- Sum accumulated by the 2-D `Benchmark` driver: `st := time.Now()` is
executed once, before the repetition loop (benchmark.go line 130), so every
repetition adds the elapsed time since before the loop. -/
def benchmark2DSum (durs : List Nat) : Nat :=
  (cumulativeSamples durs 0).sum

/-- Sum accumulated by `BatchedSquare`: `st := time.Now()` is executed at
the top of every repetition (part_002 line 323), so each repetition adds
its own enqueue-to-drain duration. -/
def batchedSquareSum (durs : List Nat) : Nat :=
  durs.sum

/-- Mean duration printed by the 2-D `Benchmark` driver for one candidate
(`sum/iterations`, benchmark.go line 148). -/
def benchmark2DReported (durs : List Nat) : Nat :=
  benchmark2DSum durs / benchmarkIterations

/-- Mean duration printed by `BatchedSquare` for one candidate
(`sum/iterations`, part_002 line 338). -/
def batchedSquareReported (durs : List Nat) : Nat :=
  batchedSquareSum durs / benchmarkIterations

/-! ## Host data of the Vectors demo

`Vectors` (part_002, lines 34-48) appends 64 vectors of 4 doubles
(`vectors1[4*i+j] = i+j`) and 64 matrices of 16 doubles
(`matrices[16*i+j] = j`).  All values are small integers, which double
precision represents exactly, so the doubles are embedded as `Int`. -/

/-- The 256 entries of `vectors1`, built by the same append loop as the Go
code. -/
def vectors1List : List Int :=
  (List.range 64).foldl
    (fun acc i => acc ++ (List.range 4).map (fun j => ((i : Int) + (j : Int)))) []

/-- The 1024 entries of `matrices`, built by the same append loop as the
Go code. -/
def matricesList : List Int :=
  (List.range 64).foldl
    (fun acc _ => acc ++ (List.range 16).map (fun j => ((j : Int)))) []

/-! ## Buffer transfers

Every `EnqueueWriteBuffer`/`EnqueueReadBuffer` call in the program uses
offset 0 and an explicit byte length against a buffer created with an
explicit byte size.  The sizes below are copied from the respective
`CreateEmptyBuffer` and enqueue calls.  `Structs` sizes its input buffer
and its upload with `ss = nextPowOf2(unsafe.Sizeof(MyStruct))`
(`nextPowOf2` is defined in a file of the repository that is not part of
the sources here), so `ss` is kept as a parameter; both sides use it. -/

/-- One host↔device transfer: target buffer byte size, byte offset and
transferred byte length. -/
structure Transfer where
  bufferBytes : Nat
  byteOffset : Nat
  byteLen : Nat
  deriving DecidableEq

/-- A transfer stays within the declared size of its buffer. -/
def Transfer.inBounds (t : Transfer) : Bool :=
  decide (t.byteLen + t.byteOffset ≤ t.bufferBytes)

/-- `Structs` transfers (part_000): upload of 256 structs of `ss` bytes
into the `ss*256`-byte input buffer; download of `256/2` four-byte
elements from the `256*8`-byte output buffer. -/
def structsTransfers (ss : Nat) : List Transfer :=
  [⟨ss * 256, 0, ss * 256⟩, ⟨256 * 8, 0, 4 * (256 / 2)⟩]

/-- `SquareLocalSize` transfers (part_001): 64 int32 up, 64 int32 down. -/
def squareLocalTransfers : List Transfer :=
  [⟨4 * 64, 0, 4 * 64⟩, ⟨4 * 64, 0, 4 * 64⟩]

/-- `Vectors` transfers (part_002): 256 and 1024 float64 up, 256 float64
down. -/
def vectorsTransfers : List Transfer :=
  [⟨8 * 256, 0, 8 * 256⟩, ⟨8 * 1024, 0, 8 * 1024⟩, ⟨8 * 256, 0, 8 * 256⟩]

/-- `BatchedSquare` transfers (part_002): 16777216 int32 up and down. -/
def batchedSquareTransfers : List Transfer :=
  [⟨4 * 16777216, 0, 4 * 16777216⟩, ⟨4 * 16777216, 0, 4 * 16777216⟩]

/-- `MultiDim` transfers (part_003): 16 float32 up and down. -/
def multiDimTransfers : List Transfer :=
  [⟨4 * 16, 0, 4 * 16⟩, ⟨4 * 16, 0, 4 * 16⟩]

/-- `Benchmark` transfers (benchmark.go): 1048576 float32 up and down. -/
def benchmarkTransfers : List Transfer :=
  [⟨4 * 1048576, 0, 4 * 1048576⟩, ⟨4 * 1048576, 0, 4 * 1048576⟩]

/-- Every transfer performed by any demo. -/
def allTransfers (ss : Nat) : List Transfer :=
  structsTransfers ss ++ squareLocalTransfers ++ vectorsTransfers ++
    batchedSquareTransfers ++ multiDimTransfers ++ benchmarkTransfers

/-! ## Explicit-local-size dispatch geometries

The enqueues that pass an explicit local size:

  * `Vectors` (part_002 line 178): global `[len(vectors1)/4]`, local `[4]`,
    dispatched unconditionally;
  * `MultiDim` (part_003 line 135): global `[4,4]`, local `[1,1]`;
  * `BatchedSquare` (part_002 line 326): global `[16777216/lz]`, local
    `[lz]`, only for candidates with `lz ≤ maxWGSize`;
  * `Benchmark` (benchmark.go line 136): global `[1024,1024]`, local
    `[L,L]`, only for candidates passing the line-131 check. -/

/-- Global sizes of the `Vectors` dispatch. -/
def vectorsGlobalSizes : List Nat := [vectors1List.length / 4]

/-- Local sizes of the `Vectors` dispatch. -/
def vectorsLocalSizes : List Nat := [4]

/-- The `Vectors` demo dispatches without consulting the device's max
work-group size (it only checks the fp64 extension). -/
def vectorsDispatchGuard (_maxWG : Nat) : Bool := true

/-- Global sizes of the `MultiDim` dispatch. -/
def multiDimGlobalSizes : List Nat := [4, 4]

/-- Local sizes of the `MultiDim` dispatch. -/
def multiDimLocalSizes : List Nat := [1, 1]

/-- Global sizes of a `BatchedSquare` dispatch with candidate `lz`. -/
def batchedSquareGlobalSizes (lz : Nat) : List Nat := [16777216 / lz]

/-- Local sizes of a `BatchedSquare` dispatch with candidate `lz`. -/
def batchedSquareLocalSizes (lz : Nat) : List Nat := [lz]

/-- Global sizes of a `Benchmark` dispatch. -/
def benchmark2DGlobalSizes : List Nat := [1024, 1024]

/-- Local sizes of a `Benchmark` dispatch with candidate `L`. -/
def benchmark2DLocalSizes (L : Nat) : List Nat := [L, L]

/-- Per-dimension exact divisibility of a global geometry by a local
geometry. -/
def dividesPerDim (g l : List Nat) : Bool :=
  decide (g.length = l.length) && (g.zip l).all (fun p => decide (p.1 % p.2 = 0))

/-! ## Kernel execution

The kernels write into an output buffer created empty
(`CreateEmptyBuffer`); a cell the program never writes keeps unspecified
content, modelled as `none`.  A dispatch runs one work item per global id;
each work item contributes a list of `(index, value)` writes.  The items'
write sets in this program are pairwise disjoint, so folding them in id
order gives the buffer contents after `queue.Finish()`. -/

/-- Apply one `(index, value)` write to a buffer. -/
def applyWrite (s : Nat → Option Int) (w : Nat × Int) : Nat → Option Int :=
  fun k => if k = w.1 then some w.2 else s k

/-- Buffer contents after every work item in `items` performed its
writes, starting from an unwritten buffer. -/
def runWriteItems (writes : Nat → List (Nat × Int)) (items : List Nat) :
    Nat → Option Int :=
  items.foldl (fun s i => (writes i).foldl applyWrite s) (fun _ => none)

/-- Writes of work item `i` of the batched `square` kernel
(`batchedSquareSrc` in part_002 and `squareLocalSrc` in part_001): for
every `n < localSize` it writes
`output[i*localSize+n] = input[i*localSize+n] * input[i*localSize+n]`. -/
def squareItemWrites (input : Nat → Int) (lz i : Nat) : List (Nat × Int) :=
  (List.range lz).map fun n =>
    (i * lz + n, input (i * lz + n) * input (i * lz + n))

/-- Output buffer of the square kernel dispatched over `g` work items with
local size `lz`. -/
def runSquareKernel (input : Nat → Int) (g lz : Nat) : Nat → Option Int :=
  runWriteItems (squareItemWrites input lz) (List.range g)

/-- Input of `SquareLocalSize`: `numbers[i] = i`, 64 int32 values. -/
def squareLocalInput (j : Nat) : Int := j

/-- Global size of the `SquareLocalSize` enqueue (part_001 line 111):
`[]int{16}` with a nil local size, so the local size `L` seen by
`get_local_size(0)` is chosen by the OpenCL implementation. -/
def squareLocalGlobalSize : Nat := 16

/-- Element count of `SquareLocalSize` (64 inputs und 64 downloaded
results). -/
def squareLocalElemCount : Nat := 64

/-- Output buffer of the `SquareLocalSize` dispatch when the
implementation chose local size `L`. -/
def runSquareLocal (L : Nat) : Nat → Option Int :=
  runSquareKernel squareLocalInput squareLocalGlobalSize L

/-- Entry `k` of `vectors1` (0 beyond the end). -/
def vectors1At (k : Nat) : Int := vectors1List.getD k 0

/-- Entry `k` of `matrices` (0 beyond the end). -/
def matricesAt (k : Nat) : Int := matricesList.getD k 0

/-- The `count` kernel argument of `Vectors`: `uint32(len(vectors1))`. -/
def vectorsCount : Nat := vectors1List.length

/-- The value `a + b + c + d` the `multiply2` kernel (part_002
`vectorsSrc`) stores at `output[vOffset + row]`, with `vOffset = i*4` and
`mOffset = i*16`. -/
def multiply2Value (i row : Nat) : Int :=
  matricesAt (16 * i + (4 * row + 0)) * vectors1At (4 * i + 0) +
  matricesAt (16 * i + (4 * row + 1)) * vectors1At (4 * i + 1) +
  matricesAt (16 * i + (4 * row + 2)) * vectors1At (4 * i + 2) +
  matricesAt (16 * i + (4 * row + 3)) * vectors1At (4 * i + 3)

/-- Writes of work item `i` of `multiply2`: guarded by `i < count`, one
write per `row < 4`. -/
def multiply2ItemWrites (count i : Nat) : List (Nat × Int) :=
  if i < count then
    (List.range 4).map fun row => (4 * i + row, multiply2Value i row)
  else []

/-- Output buffer of the `Vectors` dispatch: global size
`len(vectors1)/4` work items. -/
def runVectorsKernel : Nat → Option Int :=
  runWriteItems (multiply2ItemWrites vectorsCount)
    (List.range (vectors1List.length / 4))

/-- Number of downloaded results of `Vectors`
(`make([]float64, len(vectors1))`). -/
def vectorsResultsLen : Nat := vectors1List.length

/-- Row-major matrix-vector product, per the claim: component `row` of
matrix `i` (row-major 4×4) times vector `i`. -/
def matVecRowMajor (i row : Nat) : Int :=
  ((List.range 4).map fun k =>
    matricesAt (16 * i + (4 * row + k)) * vectors1At (4 * i + k)).sum

end OpenCLDemo

namespace OpenCLDemo

/-! ### Write-fold lemmas -/

/-- Folding a write list keeps `some v` at `j` when every write to `j` in
the list writes `v`. -/
theorem applyWrites_preserve (ws : List (Nat × Int)) (s : Nat → Option Int)
    (j : Nat) (v : Int) (hval : ∀ p ∈ ws, p.1 = j → p.2 = v)
    (hs : s j = some v) : ws.foldl applyWrite s j = some v := by
  induction ws generalizing s with
  | nil => simpa using hs
  | cons w rest ih =>
    simp only [List.foldl_cons]
    refine ih _ (fun p hp hpj => hval p (List.mem_cons_of_mem _ hp) hpj) ?_
    show applyWrite s w j = some v
    by_cases hw : j = w.1
    · simp only [applyWrite, if_pos hw]
      exact congrArg some (hval w (List.mem_cons_self _ _) hw.symm)
    · simp only [applyWrite, if_neg hw]
      exact hs

/-- Folding a write list that contains a write to `j`, all of whose
writes to `j` write `v`, puts `some v` at `j`. -/
theorem applyWrites_write (ws : List (Nat × Int)) (s : Nat → Option Int)
    (j : Nat) (v : Int) (hval : ∀ p ∈ ws, p.1 = j → p.2 = v)
    (hex : ∃ p ∈ ws, p.1 = j) : ws.foldl applyWrite s j = some v := by
  induction ws generalizing s with
  | nil =>
    rcases hex with ⟨p, hp, _⟩
    cases hp
  | cons w rest ih =>
    simp only [List.foldl_cons]
    by_cases hr : ∃ p ∈ rest, p.1 = j
    · exact ih _ (fun p hp hpj => hval p (List.mem_cons_of_mem _ hp) hpj) hr
    · rcases hex with ⟨p, hp, hpj⟩
      rcases List.mem_cons.mp hp with rfl | hmem
      · refine applyWrites_preserve rest _ j v
          (fun q hq hqj => hval q (List.mem_cons_of_mem _ hq) hqj) ?_
        show applyWrite s p j = some v
        simp only [applyWrite, if_pos hpj.symm]
        exact congrArg some (hval p (List.mem_cons_self _ _) hpj)
      · exact absurd ⟨p, hmem, hpj⟩ hr

/-- Running items over a buffer keeps `some v` at `j` when every write to
`j` by any of the items writes `v`. -/
theorem foldWriteItems_preserve (writes : Nat → List (Nat × Int))
    (items : List Nat) (s : Nat → Option Int) (j : Nat) (v : Int)
    (hval : ∀ i ∈ items, ∀ p ∈ writes i, p.1 = j → p.2 = v)
    (hs : s j = some v) :
    items.foldl (fun s i => (writes i).foldl applyWrite s) s j = some v := by
  induction items generalizing s with
  | nil => simpa using hs
  | cons i rest ih =>
    simp only [List.foldl_cons]
    exact ih _ (fun i' hi' => hval i' (List.mem_cons_of_mem _ hi'))
      (applyWrites_preserve _ _ _ _ (hval i (List.mem_cons_self _ _)) hs)

/-- Running items over a buffer puts `some v` at `j` when some item
writes `j` and every write to `j` by any item writes `v`. -/
theorem foldWriteItems_write (writes : Nat → List (Nat × Int))
    (items : List Nat) (s : Nat → Option Int) (j : Nat) (v : Int)
    (hval : ∀ i ∈ items, ∀ p ∈ writes i, p.1 = j → p.2 = v)
    (hex : ∃ i ∈ items, ∃ p ∈ writes i, p.1 = j) :
    items.foldl (fun s i => (writes i).foldl applyWrite s) s j = some v := by
  induction items generalizing s with
  | nil =>
    rcases hex with ⟨i, hi, _⟩
    cases hi
  | cons i rest ih =>
    simp only [List.foldl_cons]
    by_cases hr : ∃ i' ∈ rest, ∃ p ∈ writes i', p.1 = j
    · exact ih _ (fun i' hi' => hval i' (List.mem_cons_of_mem _ hi')) hr
    · rcases hex with ⟨i0, hi0, hp0⟩
      rcases List.mem_cons.mp hi0 with rfl | hmem
      · exact foldWriteItems_preserve writes rest _ j v
          (fun i' hi' => hval i' (List.mem_cons_of_mem _ hi'))
          (applyWrites_write _ _ _ _ (hval i0 (List.mem_cons_self _ _)) hp0)
      · exact absurd ⟨i0, hmem, hp0⟩ hr

/-- The square kernel writes the square of the input at every index below
`g * lz`. -/
theorem runSquareKernel_correct (input : Nat → Int) (g lz j : Nat)
    (hlz : 0 < lz) (hj : j < g * lz) :
    runSquareKernel input g lz j = some (input j * input j) := by
  refine foldWriteItems_write _ _ _ _ _ ?_ ?_
  · intro i _ p hp hpj
    rcases List.mem_map.mp hp with ⟨n, _, rfl⟩
    cases hpj
    rfl
  · refine ⟨j / lz, List.mem_range.mpr ((Nat.div_lt_iff_lt_mul hlz).mpr hj), ?_⟩
    refine ⟨(j / lz * lz + j % lz,
      input (j / lz * lz + j % lz) * input (j / lz * lz + j % lz)),
      List.mem_map.mpr ⟨j % lz, List.mem_range.mpr (Nat.mod_lt _ hlz), rfl⟩, ?_⟩
    exact Nat.div_add_mod' j lz

set_option maxRecDepth 10000 in
/-- `vectors1` has 256 entries (64 vectors of 4). -/
theorem vectors1List_length : vectors1List.length = 256 := by decide

set_option maxRecDepth 40000 in
/-- `matrices` has 1024 entries (64 matrices of 16). -/
theorem matricesList_length : matricesList.length = 1024 := by decide

/-- The `multiply2` dispatch writes `multiply2Value (j/4) (j%4)` at every
output index `j < 256`. -/
theorem runVectorsKernel_correct (j : Nat) (hj : j < 256) :
    runVectorsKernel j = some (multiply2Value (j / 4) (j % 4)) := by
  have hcount : vectorsCount = 256 := vectors1List_length
  refine foldWriteItems_write _ _ _ _ _ ?_ ?_
  · intro i _ p hp hpj
    simp only [multiply2ItemWrites] at hp
    by_cases hc : i < vectorsCount
    · rw [if_pos hc] at hp
      rcases List.mem_map.mp hp with ⟨row, hrow, rfl⟩
      have hrow4 : row < 4 := List.mem_range.mp hrow
      simp only at hpj ⊢
      have hi : i = j / 4 := by omega
      have hr : row = j % 4 := by omega
      rw [hi, hr]
    · rw [if_neg hc] at hp
      cases hp
  · refine ⟨j / 4, List.mem_range.mpr ?_, ?_⟩
    · rw [vectors1List_length]
      omega
    · have hc : j / 4 < vectorsCount := by
        rw [hcount]
        omega
      simp only [multiply2ItemWrites, if_pos hc]
      exact ⟨(4 * (j / 4) + j % 4, multiply2Value (j / 4) (j % 4)),
        List.mem_map.mpr ⟨j % 4, List.mem_range.mpr (by omega), rfl⟩, by omega⟩

end OpenCLDemo

namespace OpenCLDemo

/-- C1: for `problemSize > 0` and preferred multiple `P > 0`, the auto-padded
global size is a multiple of `P`, is at least `problemSize`, and is less than
`problemSize + P`. -/
theorem C1_autoPad_bounds (problemSize P : Nat)
    (hps : 0 < problemSize) (hP : 0 < P) :
    autoPadGlobal problemSize P % P = 0 ∧
    problemSize ≤ autoPadGlobal problemSize P ∧
    autoPadGlobal problemSize P < problemSize + P := by
  simp only [autoPadGlobal]
  by_cases h : problemSize % P = 0
  · simp only [h, ne_eq, not_true_eq_false, if_false]
    exact ⟨trivial, Nat.le_refl _, by omega⟩
  · simp only [ne_eq, h, not_false_eq_true, if_true]
    have hrlt : problemSize % P < P := Nat.mod_lt _ hP
    have hkey : problemSize + (P - problemSize % P)
        = P * (problemSize / P + 1) := by
      have hd := Nat.div_add_mod problemSize P
      rw [Nat.mul_add, Nat.mul_one]
      omega
    refine ⟨?_, by omega, by omega⟩
    rw [hkey]
    exact Nat.mul_mod_right _ _

/-- Witness for C1 at `problemSize = 5`, `P = 4`: the padded global is 8. -/
theorem C1_autoPad_bounds_witness :
    autoPadGlobal 5 4 % 4 = 0 ∧ 5 ≤ autoPadGlobal 5 4 ∧ autoPadGlobal 5 4 < 5 + 4 :=
  C1_autoPad_bounds 5 4 (by decide) (by decide)

/-- C2 counterexample: on a device with `maxWorkGroupSize = 1024` and
`maxWorkItemSizes[0] = 512`, the candidate `lz = 1024` exceeds the
work-item limit, so the claim demands it be skipped; the `BatchedSquare`
driver does not skip it and produces a dispatch and a measurement row. -/
theorem C2_batched_workitem_counterexample :
    batchedSquareSkipClaim 1024 512 1024 = true ∧
    batchedSquareSkip 1024 1024 = false ∧
    1024 ∈ batchedSquareRows 1024 := by
  decide

/-- C2 amended: the 2-D `Benchmark` driver skips (produces no row for) a
candidate exactly when its aggregate local product exceeds
`maxWorkGroupSize` or the candidate exceeds `maxWorkItemSizes[0]` or
`maxWorkItemSizes[1]`, while `BatchedSquare` skips exactly when the
candidate exceeds `maxWorkGroupSize` — it never checks `maxWorkItemSizes`.
Neither driver clamps: every emitted row's local size is one of the
supplied candidates, unmodified. -/
theorem C2_feasibility_amended (maxWG wi0 wi1 L : Nat)
    (hL : L ∈ benchmarkLocalSizes) :
    (L ∉ benchmark2DRows maxWG wi0 wi1 ↔
      (maxWG < L * L ∨ wi0 < L ∨ wi1 < L)) ∧
    (L ∉ batchedSquareRows maxWG ↔ maxWG < L) ∧
    benchmark2DRows maxWG wi0 wi1 ⊆ benchmarkLocalSizes ∧
    batchedSquareRows maxWG ⊆ benchmarkLocalSizes := by
  refine ⟨?_, ?_, fun x hx => (List.mem_filter.mp hx).1,
    fun x hx => (List.mem_filter.mp hx).1⟩
  · simp [benchmark2DRows, List.mem_filter, hL, benchmark2DSkip]
    omega
  · simp [batchedSquareRows, List.mem_filter, hL, batchedSquareSkip]

/-- Witness for C2 amended: on a device with `maxWorkGroupSize = 256`
(and large work-item limits), candidate 1024 produces no row in either
driver. -/
theorem C2_feasibility_amended_witness :
    (1024 ∉ benchmark2DRows 256 1024 1024 ↔
      (256 < 1024 * 1024 ∨ 1024 < 1024 ∨ 1024 < 1024)) ∧
    (1024 ∉ batchedSquareRows 256 ↔ 256 < 1024) ∧
    benchmark2DRows 256 1024 1024 ⊆ benchmarkLocalSizes ∧
    batchedSquareRows 256 ⊆ benchmarkLocalSizes :=
  C2_feasibility_amended 256 1024 1024 1024 (by decide)

/-- C3: `BatchedSquare` reports the (floor of the) mean of the 16
per-repetition enqueue-to-drain durations, but `Benchmark` resets its
timestamp only once, before the repetition loop, so it sums cumulative
elapsed times: with every repetition taking 1µs it reports
(1+2+...+16)/16 = 8µs instead of 1µs. -/
theorem C3_cumulative_timing_bug :
    (List.replicate benchmarkIterations 1).length = benchmarkIterations ∧
    batchedSquareReported (List.replicate benchmarkIterations 1) = 1 ∧
    benchmark2DReported (List.replicate benchmarkIterations 1) = 8 ∧
    benchmark2DReported (List.replicate benchmarkIterations 1) ≠
      batchedSquareReported (List.replicate benchmarkIterations 1) := by
  decide

/-- C5: for the batched square kernel dispatched with global size
`problemSize / lz`, every feasible local size (`lz ≤ maxWorkGroupSize` and
`lz` dividing `problemSize`) yields `input[j] * input[j]` at every output
index `j < problemSize`, and any two feasible local sizes yield identical
outputs there. -/
theorem C5_batched_square_determinate (input : Nat → Int)
    (problemSize maxWG lz1 lz2 j : Nat) (hps : 0 < problemSize)
    (h1 : lz1 ∣ problemSize) (h1wg : lz1 ≤ maxWG)
    (h2 : lz2 ∣ problemSize) (h2wg : lz2 ≤ maxWG)
    (hj : j < problemSize) :
    runSquareKernel input (problemSize / lz1) lz1 j
      = some (input j * input j) ∧
    runSquareKernel input (problemSize / lz1) lz1 j
      = runSquareKernel input (problemSize / lz2) lz2 j := by
  have hp1 : 0 < lz1 := Nat.pos_of_dvd_of_pos h1 hps
  have hp2 : 0 < lz2 := Nat.pos_of_dvd_of_pos h2 hps
  have e1 : problemSize / lz1 * lz1 = problemSize := Nat.div_mul_cancel h1
  have e2 : problemSize / lz2 * lz2 = problemSize := Nat.div_mul_cancel h2
  have r1 := runSquareKernel_correct input (problemSize / lz1) lz1 j hp1
    (by rw [e1]; exact hj)
  have r2 := runSquareKernel_correct input (problemSize / lz2) lz2 j hp2
    (by rw [e2]; exact hj)
  exact ⟨r1, r1.trans r2.symm⟩

/-- Witness for C5: `problemSize = 8`, `maxWG = 4`, local sizes 2 and 4,
output index 5 holds `25` either way. -/
theorem C5_batched_square_determinate_witness :
    runSquareKernel (fun n => (n : Int)) (8 / 2) 2 5 = some ((5 : Int) * 5) ∧
    runSquareKernel (fun n => (n : Int)) (8 / 2) 2 5
      = runSquareKernel (fun n => (n : Int)) (8 / 4) 4 5 :=
  C5_batched_square_determinate (fun n => (n : Int)) 8 4 2 4 5 (by decide)
    (by decide) (by decide) (by decide) (by decide) (by decide)

/-- C6 counterexample: an implementation may legitimately choose local
size 1 for the `SquareLocalSize` dispatch (1 divides the global size 16);
then only output indices below 16 are written, so downloaded element 16 is
the unspecified initial buffer content, not `16*16 = 256`. -/
theorem C6_unwritten_tail_counterexample :
    (1 : Nat) ∣ squareLocalGlobalSize ∧
    runSquareLocal 1 16 = none ∧
    runSquareLocal 1 16 ≠ some (squareLocalInput 16 * squareLocalInput 16) := by
  decide

/-- C6 amended: when the implementation-chosen local size is 4 (so that
the 16 global work items cover exactly `16*4 = 64` indices), every
downloaded element `j < 64` is the square of input element `j`
(`[0, 1, 4, 9, ..., 3969]`). -/
theorem C6_square_local_amended (j : Nat) (hj : j < squareLocalElemCount) :
    runSquareLocal 4 j = some (squareLocalInput j * squareLocalInput j) := by
  have h : squareLocalGlobalSize * 4 = squareLocalElemCount := by decide
  exact runSquareKernel_correct squareLocalInput squareLocalGlobalSize 4 j
    (by decide) (by rw [h]; exact hj)

/-- Witness for C6 amended at the last element: `63*63 = 3969`. -/
theorem C6_square_local_amended_witness :
    runSquareLocal 4 63 = some (squareLocalInput 63 * squareLocalInput 63) :=
  C6_square_local_amended 63 (by decide)

set_option maxRecDepth 10000 in
/-- C7 counterexample: the `Vectors` demo enqueues global size
`len(vectors1)/4 = 256/4 = 64`, not 16. -/
theorem C7_global_size_counterexample :
    vectorsGlobalSizes = [64] ∧ vectorsGlobalSizes ≠ [16] := by
  decide

set_option maxRecDepth 10000 in
/-- C7 amended: the `Vectors` demo uploads 256 doubles of vectors and 1024
doubles of matrices, dispatches `multiply2` with global size 64 (one work
item per vector) and local size 4, downloads 256 doubles, and each output
component `4*i + row` equals component `row` of the row-major
matrix-vector product of matrix `i` and vector `i`. -/
theorem C7_vectors_amended (i row : Nat) (hi : i < 64) (hrow : row < 4) :
    vectorsGlobalSizes = [64] ∧ vectorsLocalSizes = [4] ∧
    vectors1List.length = 256 ∧ matricesList.length = 1024 ∧
    vectorsResultsLen = 256 ∧
    runVectorsKernel (4 * i + row) = some (matVecRowMajor i row) := by
  refine ⟨by decide, rfl, vectors1List_length, matricesList_length,
    vectors1List_length, ?_⟩
  have h := runVectorsKernel_correct (4 * i + row) (by omega)
  have hdiv : (4 * i + row) / 4 = i := by omega
  have hmod : (4 * i + row) % 4 = row := by omega
  rw [hdiv, hmod] at h
  rw [h]
  congr 1
  have h4 : List.range 4 = [0, 1, 2, 3] := rfl
  simp only [matVecRowMajor, multiply2Value, h4, List.map_cons,
    List.map_nil, List.sum_cons, List.sum_nil]
  ring

set_option maxRecDepth 10000 in
/-- Witness for C7 amended at `i = 63`, `row = 3`. -/
theorem C7_vectors_amended_witness :
    vectorsGlobalSizes = [64] ∧ vectorsLocalSizes = [4] ∧
    vectors1List.length = 256 ∧ matricesList.length = 1024 ∧
    vectorsResultsLen = 256 ∧
    runVectorsKernel (4 * 63 + 3) = some (matVecRowMajor 63 3) :=
  C7_vectors_amended 63 3 (by decide) (by decide)

/-- C4 counterexample: on a device with `maxWorkGroupSize = 1` (the code
never reads it in `Vectors`), the `Vectors` dispatch still happens and its
local-size product 4 exceeds the device limit. -/
theorem C4_vectors_product_counterexample :
    vectorsDispatchGuard 1 = true ∧
    vectorsLocalSizes.prod = 4 ∧
    ¬ (vectorsLocalSizes.prod ≤ 1) := by
  decide

set_option maxRecDepth 10000 in
/-- C4 amended: every explicit-local-size enqueue satisfies per-dimension
divisibility of the global size by the local size.  The local-size product
is within `maxWorkGroupSize` for `MultiDim` (product 1) and for the
benchmark drivers' dispatched candidates (their skip checks enforce it);
the `Vectors` demo dispatches local `[4]` unconditionally, so its product
bound holds only when the device's `maxWorkGroupSize` is at least 4. -/
theorem C4_geometry_amended (maxWG wi0 wi1 lz L : Nat)
    (hmaxWG : 0 < maxWG)
    (hlz : lz ∈ benchmarkLocalSizes)
    (hlzok : batchedSquareSkip maxWG lz = false)
    (hLmem : L ∈ benchmarkLocalSizes)
    (hLok : benchmark2DSkip maxWG wi0 wi1 L = false) :
    dividesPerDim vectorsGlobalSizes vectorsLocalSizes = true ∧
    dividesPerDim multiDimGlobalSizes multiDimLocalSizes = true ∧
    dividesPerDim (batchedSquareGlobalSizes lz) (batchedSquareLocalSizes lz) = true ∧
    dividesPerDim benchmark2DGlobalSizes (benchmark2DLocalSizes L) = true ∧
    multiDimLocalSizes.prod ≤ maxWG ∧
    (batchedSquareLocalSizes lz).prod ≤ maxWG ∧
    (benchmark2DLocalSizes L).prod ≤ maxWG ∧
    (4 ≤ maxWG → vectorsLocalSizes.prod ≤ maxWG) := by
  have hlz' : lz ≤ maxWG := by
    simpa [batchedSquareSkip] using hlzok
  have hL2 : L * L ≤ maxWG := by
    simp [benchmark2DSkip] at hLok
    omega
  refine ⟨by decide, by decide, ?_, ?_, ?_, ?_, ?_, ?_⟩
  · fin_cases hlz <;> decide
  · fin_cases hLmem <;> decide
  · simp [multiDimLocalSizes]
    omega
  · simpa [batchedSquareLocalSizes] using hlz'
  · simpa [benchmark2DLocalSizes] using hL2
  · intro h4
    simpa [vectorsLocalSizes] using h4

/-- Witness for C4 amended, on a device with `maxWorkGroupSize = 1024`,
`maxWorkItemSizes = [1024, 64, ...]`, batched candidate 256 and 2-D
candidate 16. -/
theorem C4_geometry_amended_witness :
    dividesPerDim vectorsGlobalSizes vectorsLocalSizes = true ∧
    dividesPerDim multiDimGlobalSizes multiDimLocalSizes = true ∧
    dividesPerDim (batchedSquareGlobalSizes 256) (batchedSquareLocalSizes 256) = true ∧
    dividesPerDim benchmark2DGlobalSizes (benchmark2DLocalSizes 16) = true ∧
    multiDimLocalSizes.prod ≤ 1024 ∧
    (batchedSquareLocalSizes 256).prod ≤ 1024 ∧
    (benchmark2DLocalSizes 16).prod ≤ 1024 ∧
    (4 ≤ 1024 → vectorsLocalSizes.prod ≤ 1024) :=
  C4_geometry_amended 1024 1024 64 256 16 (by decide) (by decide)
    (by decide) (by decide) (by decide)

/-- C9: every host-to-device upload and device-to-host download in the
program uses offset 0 and a byte length that fits the declared byte size
of the targeted buffer (for any struct stride `ss`, since the `Structs`
input buffer and upload both use `ss*256`), so the out-of-bounds
transfer-failure branch is unreachable; in particular the `Structs`
download reads `4*(256/2)` bytes of the `256*8`-byte output buffer. -/
theorem C9_transfers_in_bounds (ss : Nat) (t : Transfer)
    (ht : t ∈ allTransfers ss) :
    t.inBounds = true ∧ t.byteOffset = 0 ∧
    (structsTransfers ss).get? 1 = some ⟨256 * 8, 0, 4 * (256 / 2)⟩ := by
  have h : t.inBounds = true ∧ t.byteOffset = 0 := by
    fin_cases ht <;> simp [Transfer.inBounds]
  exact ⟨h.1, h.2, rfl⟩

/-- Witness for C9 at `ss = 128` (the byte size of `MyStruct`) and the
`Structs` download transfer. -/
theorem C9_transfers_in_bounds_witness :
    (Transfer.inBounds ⟨256 * 8, 0, 4 * (256 / 2)⟩) = true ∧
    (Transfer.byteOffset ⟨256 * 8, 0, 4 * (256 / 2)⟩) = 0 ∧
    (structsTransfers 128).get? 1 = some ⟨256 * 8, 0, 4 * (256 / 2)⟩ :=
  C9_transfers_in_bounds 128 ⟨256 * 8, 0, 4 * (256 / 2)⟩ (by decide)

/-- C8 counterexample: with one enumerated device and selection index 5
(out of range), the `Benchmark` demo hits an unreported Go
index-out-of-range runtime panic — not a reported `DeviceUnavailable`
fatal error (no such error value exists in the code). -/
theorem C8_out_of_range_counterexample :
    benchmarkSelect 1 5 = SelectOutcome.runtimePanic ∧
    SelectOutcome.runtimePanic ≠ SelectOutcome.reportedFatal "DeviceUnavailable" := by
  constructor
  · rfl
  · decide

/-- C8 amended: only an empty device list is reported fatally (with the
message `GetDevices returned no devices`); an out-of-range index against a
non-empty list is not validated: `Benchmark` panics at the slice indexing
for negative and too-large indices alike, while `Structs` clamps a negative
index to 0 and proceeds on device 0, panicking only for too-large
indices. -/
theorem C8_selection_amended (n : Nat) (i : Int) (hn : 0 < n)
    (hout : i < 0 ∨ (n : Int) ≤ i) :
    benchmarkSelect n i = SelectOutcome.runtimePanic ∧
    structsSelect n i
      = (if i < 0 then SelectOutcome.ok 0 else SelectOutcome.runtimePanic) ∧
    benchmarkSelect 0 i
      = SelectOutcome.reportedFatal "GetDevices returned no devices" := by
  refine ⟨?_, ?_, rfl⟩
  · simp only [benchmarkSelect, goIndexOutcome, benchmarkDeviceIndex]
    split_ifs <;> first | rfl | omega
  · simp only [structsSelect, goIndexOutcome, structsDeviceIndex]
    split_ifs <;> first | rfl | omega

/-- Witness for C8 amended, at one device and index 5. -/
theorem C8_selection_amended_witness :
    benchmarkSelect 1 5 = SelectOutcome.runtimePanic ∧
    structsSelect 1 5
      = (if (5 : Int) < 0 then SelectOutcome.ok 0 else SelectOutcome.runtimePanic) ∧
    benchmarkSelect 0 5
      = SelectOutcome.reportedFatal "GetDevices returned no devices" :=
  C8_selection_amended 1 5 (by decide) (Or.inr (by decide))

/-- C10: for every negative device index, `Structs` and `Vectors` clamp the
index to 0 and run on device 0, while `SquareLocalSize`, `MultiDim`,
`BatchedSquare` and `Benchmark` index the device list with the index as
given, so the handling differs between the two groups of demos. -/
theorem C10_negative_index_handling (i : Int) (h : i < 0) :
    structsDeviceIndex i = 0 ∧ vectorsDeviceIndex i = 0 ∧
    squareLocalDeviceIndex i = i ∧ multiDimDeviceIndex i = i ∧
    batchedSquareDeviceIndex i = i ∧ benchmarkDeviceIndex i = i ∧
    structsDeviceIndex i ≠ benchmarkDeviceIndex i ∧
    vectorsDeviceIndex i ≠ benchmarkDeviceIndex i := by
  refine ⟨if_pos h, if_pos h, rfl, rfl, rfl, rfl, ?_, ?_⟩ <;>
  · simp only [structsDeviceIndex, vectorsDeviceIndex, benchmarkDeviceIndex,
      if_pos h]
    omega

/-- Witness for C10 at index `-1`. -/
theorem C10_negative_index_handling_witness :
    structsDeviceIndex (-1) = 0 ∧ vectorsDeviceIndex (-1) = 0 ∧
    squareLocalDeviceIndex (-1) = -1 ∧ multiDimDeviceIndex (-1) = -1 ∧
    batchedSquareDeviceIndex (-1) = -1 ∧ benchmarkDeviceIndex (-1) = -1 ∧
    structsDeviceIndex (-1) ≠ benchmarkDeviceIndex (-1) ∧
    vectorsDeviceIndex (-1) ≠ benchmarkDeviceIndex (-1) :=
  C10_negative_index_handling (-1) (by decide)

end OpenCLDemo
